import Mathlib

/-!
# Subscription engine of the rsshub plugin (`plugin/rsshub/domain/rss_hub.go`)

A shallow embedding of `rssDomain.Subscribe`, `rssDomain.Unsubscribe` and
`rssDomain.GetSubscribedChannelsByGroupID`.

* The collaborators (`RepoStorage`, `RssHubClient`) are interfaces whose
  implementations live outside `rss_hub.go`; the engine is embedded over an
  arbitrary implementation of them (`RepoStorage σ`, `RssHubClient`), with the
  store state `σ` passed explicitly.
* Go `error` values are `Option String` (`none` is `nil`); a Go pair
  `(value, err)` returned by a query is `Except String value`.
* Every call made on a collaborator is appended to a ghost log (`calls`), so
  that statements of the form "no store operation is invoked" can be stated.
-/

set_option autoImplicit false

namespace domain

/-! ## Data model -/

/-- Modelled from the spec: the content item type is declared outside `rss_hub.go`.
The spec (sections 3 and 6) gives it an identifier, a title, a link, a publish time
and a body. -/
structure RssContent where
  Identifier : String
  Title : String
  Link : String
  PublishTime : Int
  Body : String
deriving DecidableEq, Repr

/-- Modelled from the spec: the channel row type is declared outside `rss_hub.go`.
The source reads its `ID` field; the spec (section 3) adds the feed path (natural
key), the title and the last-known list of content item identifiers. -/
structure RssFeedChannel where
  ID : Int
  RssHubFeedPath : String
  Title : String
  Snapshot : List String
deriving DecidableEq, Repr

/-- Modelled from the spec: the subscription row type is declared outside
`rss_hub.go`; its identity is the pair (group ID, channel ID). -/
structure RssSubscribe where
  GroupID : Int
  RssFeedChannelID : Int
deriving DecidableEq, Repr

/-- The view type `RssChannelView`: the source builds it with the fields `Channel`
(a pointer to a channel row) and `Contents`. A `nil` contents slice is `[]`. -/
structure RssChannelView where
  Channel : RssFeedChannel
  Contents : List RssContent
deriving DecidableEq, Repr

/-- Modelled from the spec: the structured feed returned by the fetcher (section 6):
a title and an ordered list of content items. -/
structure Feed where
  Title : String
  Items : List RssContent
deriving DecidableEq, Repr

/-- Modelled from the spec: `convertFeedToRssChannelView` is defined outside
`rss_hub.go`. Per section 4.1 step 2 it builds the view of a fetched feed: the channel
carries the given ID, the feed path, the feed title and the identifiers of the feed's
items, and the contents are the feed's items. -/
def convertFeedToRssChannelView (channelID : Int) (feedPath : String) (feed : Feed) :
    RssChannelView :=
  { Channel :=
      { ID := channelID
        RssHubFeedPath := feedPath
        Title := feed.Title
        Snapshot := feed.Items.map (fun it => it.Identifier) }
    Contents := feed.Items }

/-- Modelled from the spec: the package-level table `rssHubMirrors` is declared outside
`rss_hub.go`. `Subscribe` indexes its entry 0 (the primary mirror), so the table is
represented by that first entry and the remaining ones. -/
structure Mirrors where
  first : String
  rest : List String
deriving DecidableEq, Repr

/-! ## Collaborator interfaces -/

/-- The fetcher `RssHubClient`: `FetchFeed mirror feedPath` returns a feed or an error. -/
structure RssHubClient where
  FetchFeed : String → String → Except String Feed

/-- Outcome of `UpsertSource`: the error, the record that was passed by pointer as the
store left it, and the store state after the call. -/
structure UpsertOutcome (σ : Type) where
  err : Option String
  record : RssFeedChannel
  store : σ

/-- The ID held after `UpsertSource` by the record that was passed to it. -/
abbrev UpsertOutcome.ID {σ : Type} (o : UpsertOutcome σ) : Int :=
  o.record.ID

/-- Outcome of a store write that returns only an error. -/
structure WriteOutcome (σ : Type) where
  err : Option String
  store : σ

/-- The `RepoStorage` interface as `rss_hub.go` uses it, over a store state `σ`.
Queries read the state; writes return the state they leave behind, also when they
fail. `UpsertSource` receives the caller's channel record by pointer and may write any
of its fields: it returns the record as it leaves it (the source reads `rv.Channel.ID`
right after the call and returns `rv` with that record). -/
structure RepoStorage (σ : Type) where
  GetSourceByRssHubFeedLink : σ → String → Except String (Option RssFeedChannel)
  UpsertSource : σ → RssFeedChannel → UpsertOutcome σ
  GetSubscribeByID : σ → Int → Int → Except String (Option RssSubscribe)
  CreateSubscribe : σ → Int → Int → WriteOutcome σ
  DeleteSubscribe : σ → Int → Int → WriteOutcome σ
  GetIfExistedSubscribe : σ → Int → String → Except String (Option RssFeedChannel × Bool)
  GetSubscribedChannelsByGroupID : σ → Int → Except String (List RssFeedChannel)

/-- The struct `rssDomain`: a storage and a feed client. -/
structure rssDomain (σ : Type) where
  storage : RepoStorage σ
  rssHubClient : RssHubClient

/-- A call made on a collaborator (ghost log entry). -/
inductive Call where
  | FetchFeed (mirror feedPath : String)
  | GetSourceByRssHubFeedLink (feedPath : String)
  | UpsertSource (channel : RssFeedChannel)
  | GetSubscribeByID (gid channelID : Int)
  | CreateSubscribe (gid channelID : Int)
  | DeleteSubscribe (gid channelID : Int)
  | GetIfExistedSubscribe (gid : Int) (feedPath : String)
  | GetSubscribedChannelsByGroupID (gid : Int)
deriving DecidableEq, Repr

/-- Whether a logged call is an operation of the channel store. -/
def Call.isStoreCall : Call → Bool
  | .FetchFeed _ _ => false
  | _ => true

/-- Whether a logged call is a store write. -/
def Call.isWrite : Call → Bool
  | .UpsertSource _ => true
  | .CreateSubscribe _ _ => true
  | .DeleteSubscribe _ _ => true
  | _ => false

/-- The store writes of a log, in order. -/
def writes (calls : List Call) : List Call :=
  calls.filter Call.isWrite

/-! ## The engine -/

/-- The named results of `Subscribe`, with the store state and the call log. -/
structure SubscribeResult (σ : Type) where
  rv : Option RssChannelView
  isChannelExisted : Bool
  isSubExisted : Bool
  err : Option String
  store : σ
  calls : List Call

/-- The method `rssDomain.Subscribe` (rss_hub.go lines 75-124). -/
def Subscribe {σ : Type} (repo : rssDomain σ) (rssHubMirrors : Mirrors) (s : σ)
    (gid : Int) (feedPath : String) : SubscribeResult σ :=
  let c0 := [Call.FetchFeed rssHubMirrors.first feedPath]
  match repo.rssHubClient.FetchFeed rssHubMirrors.first feedPath with
  | .error e =>
    { rv := none, isChannelExisted := false, isSubExisted := false, err := some e,
      store := s, calls := c0 }
  | .ok feed =>
    let rv := convertFeedToRssChannelView 0 feedPath feed
    let c1 := c0 ++ [Call.GetSourceByRssHubFeedLink feedPath]
    match repo.storage.GetSourceByRssHubFeedLink s feedPath with
    | .error e =>
      { rv := some rv, isChannelExisted := false, isSubExisted := false, err := some e,
        store := s, calls := c1 }
    | .ok rfExisted =>
      let isChannelExisted := rfExisted.isSome
      let c2 := c1 ++ [Call.UpsertSource rv.Channel]
      let up := repo.storage.UpsertSource s rv.Channel
      let rv : RssChannelView := { rv with Channel := up.record }
      match up.err with
      | some e =>
        { rv := some rv, isChannelExisted := isChannelExisted, isSubExisted := false,
          err := some e, store := up.store, calls := c2 }
      | none =>
        let c3 := c2 ++ [Call.GetSubscribeByID gid rv.Channel.ID]
        match repo.storage.GetSubscribeByID up.store gid rv.Channel.ID with
        | .error e =>
          { rv := some rv, isChannelExisted := isChannelExisted, isSubExisted := false,
            err := some e, store := up.store, calls := c3 }
        | .ok (some _) =>
          { rv := some rv, isChannelExisted := isChannelExisted, isSubExisted := true,
            err := none, store := up.store, calls := c3 }
        | .ok none =>
          let c4 := c3 ++ [Call.CreateSubscribe gid rv.Channel.ID]
          let cr := repo.storage.CreateSubscribe up.store gid rv.Channel.ID
          { rv := some rv, isChannelExisted := isChannelExisted, isSubExisted := false,
            err := cr.err, store := cr.store, calls := c4 }

/-- The record `Subscribe` passes to `UpsertSource`: the channel of the view built from the
fetched feed, with ID 0. -/
abbrev builtChannel (feedPath : String) (feed : Feed) : RssFeedChannel :=
  (convertFeedToRssChannelView 0 feedPath feed).Channel

/-- The outcome of the upsert `Subscribe` issues after fetching `feed`. -/
abbrev upserted {σ : Type} (repo : rssDomain σ) (s : σ) (feedPath : String) (feed : Feed) :
    UpsertOutcome σ :=
  repo.storage.UpsertSource s (builtChannel feedPath feed)

/-- The view `Subscribe` returns once the upsert was issued: the view built from the fetched
feed, its channel record being as the store left it. -/
abbrev returnedView {σ : Type} (repo : rssDomain σ) (s : σ) (feedPath : String) (feed : Feed) :
    RssChannelView :=
  { Channel := (upserted repo s feedPath feed).record
    Contents := (convertFeedToRssChannelView 0 feedPath feed).Contents }

/-- The six ways a `Subscribe` call can run. -/
inductive SubscribePath {σ : Type} (repo : rssDomain σ) (rssHubMirrors : Mirrors) (s : σ)
    (gid : Int) (feedPath : String) : Prop where
  | fetchError (e : String)
      (hf : repo.rssHubClient.FetchFeed rssHubMirrors.first feedPath = .error e)
  | lookupError (feed : Feed) (e : String)
      (hf : repo.rssHubClient.FetchFeed rssHubMirrors.first feedPath = .ok feed)
      (hl : repo.storage.GetSourceByRssHubFeedLink s feedPath = .error e)
  | upsertError (feed : Feed) (rf : Option RssFeedChannel) (e : String)
      (hf : repo.rssHubClient.FetchFeed rssHubMirrors.first feedPath = .ok feed)
      (hl : repo.storage.GetSourceByRssHubFeedLink s feedPath = .ok rf)
      (hu : (upserted repo s feedPath feed).err = some e)
  | subError (feed : Feed) (rf : Option RssFeedChannel) (e : String)
      (hf : repo.rssHubClient.FetchFeed rssHubMirrors.first feedPath = .ok feed)
      (hl : repo.storage.GetSourceByRssHubFeedLink s feedPath = .ok rf)
      (hu : (upserted repo s feedPath feed).err = none)
      (hg : repo.storage.GetSubscribeByID (upserted repo s feedPath feed).store gid
        (upserted repo s feedPath feed).ID = .error e)
  | subFound (feed : Feed) (rf : Option RssFeedChannel) (sub : RssSubscribe)
      (hf : repo.rssHubClient.FetchFeed rssHubMirrors.first feedPath = .ok feed)
      (hl : repo.storage.GetSourceByRssHubFeedLink s feedPath = .ok rf)
      (hu : (upserted repo s feedPath feed).err = none)
      (hg : repo.storage.GetSubscribeByID (upserted repo s feedPath feed).store gid
        (upserted repo s feedPath feed).ID = .ok (some sub))
  | subAbsent (feed : Feed) (rf : Option RssFeedChannel)
      (hf : repo.rssHubClient.FetchFeed rssHubMirrors.first feedPath = .ok feed)
      (hl : repo.storage.GetSourceByRssHubFeedLink s feedPath = .ok rf)
      (hu : (upserted repo s feedPath feed).err = none)
      (hg : repo.storage.GetSubscribeByID (upserted repo s feedPath feed).store gid
        (upserted repo s feedPath feed).ID = .ok none)

/-- The result of `Unsubscribe`, with the store state and the call log. -/
structure UnsubscribeResult (σ : Type) where
  err : Option String
  store : σ
  calls : List Call

/-- The method `rssDomain.Unsubscribe` (rss_hub.go lines 127-145). -/
def Unsubscribe {σ : Type} (repo : rssDomain σ) (s : σ) (gid : Int) (feedPath : String) :
    UnsubscribeResult σ :=
  let c0 := [Call.GetIfExistedSubscribe gid feedPath]
  match repo.storage.GetIfExistedSubscribe s gid feedPath with
  | .error _ => { err := some "数据库错误", store := s, calls := c0 }
  | .ok (rf, ifExisted) =>
    match ifExisted, rf with
    | true, some rf =>
      let c1 := c0 ++ [Call.DeleteSubscribe gid rf.ID]
      let del := repo.storage.DeleteSubscribe s gid rf.ID
      match del.err with
      | some _ => { err := some "删除失败", store := del.store, calls := c1 }
      | none => { err := none, store := del.store, calls := c1 }
    | _, _ => { err := some "频道不存在", store := s, calls := c0 }

/-- The result of `GetSubscribedChannelsByGroupID`: the slice `rv` (`none` would be a
nil slice), the error, the store state and the call log. -/
structure ChannelsResult (σ : Type) where
  rv : Option (List RssChannelView)
  err : Option String
  store : σ
  calls : List Call

/-- The method `rssDomain.GetSubscribedChannelsByGroupID` (rss_hub.go lines 148-163):
`rv` starts as an allocated empty slice and one view is appended per channel. -/
def GetSubscribedChannelsByGroupID {σ : Type} (repo : rssDomain σ) (s : σ) (gid : Int) :
    ChannelsResult σ :=
  let rv : List RssChannelView := []
  let c0 := [Call.GetSubscribedChannelsByGroupID gid]
  match repo.storage.GetSubscribedChannelsByGroupID s gid with
  | .error e => { rv := some rv, err := some e, store := s, calls := c0 }
  | .ok channels =>
    { rv := some (channels.foldl (fun acc cn => acc ++ [{ Channel := cn, Contents := [] }]) rv),
      err := none, store := s, calls := c0 }

/-! ## The channel store, modelled from the spec -/

/-- Modelled from the spec: the state of the Channel Store (section 2): the channel
rows and the subscription rows. The implementation of `RepoStorage` is outside
`rss_hub.go`. -/
structure Store where
  channels : List RssFeedChannel
  subscribes : List RssSubscribe
deriving DecidableEq, Repr

/-- Modelled from the spec: the system-assigned ID given to a channel on first insert
(section 3): one more than the largest ID in use, and at least 1. -/
def Store.nextID (s : Store) : Int :=
  (s.channels.map (fun c => c.ID)).foldl max 0 + 1

/-- Modelled from the spec: whether a subscription row is the pair (group, channel). -/
def RssSubscribe.isPair (gid channelID : Int) (r : RssSubscribe) : Bool :=
  r.GroupID == gid && r.RssFeedChannelID == channelID

/-- Modelled from the spec: whether a channel row has the given feed path (the natural key). -/
def RssFeedChannel.hasPath (feedPath : String) (c : RssFeedChannel) : Bool :=
  c.RssHubFeedPath == feedPath

/-- Modelled from the spec: the Channel Store of sections 2, 3 and 6, whose
implementation (`repoStorage`) is outside `rss_hub.go`. Channels are keyed by feed
path; the upsert inserts a new row under a fresh ID or refreshes the title and content
snapshot of the existing one, and writes the row's ID, and nothing else, into the caller's
record ("ID unset until persisted"); subscriptions are (group, channel) pairs; the combined lookup finds
the channel by feed path and reports whether the group is linked to it. Every operation
of this store succeeds. -/
def specStorage : RepoStorage Store where
  GetSourceByRssHubFeedLink := fun s feedPath =>
    .ok (s.channels.find? (RssFeedChannel.hasPath feedPath))
  UpsertSource := fun s c =>
    match s.channels.find? (RssFeedChannel.hasPath c.RssHubFeedPath) with
    | some old =>
      { err := none
        record := { c with ID := old.ID }
        store :=
          { s with
            channels := s.channels.map (fun r =>
              if r.hasPath c.RssHubFeedPath then
                { r with Title := c.Title, Snapshot := c.Snapshot }
              else r) } }
    | none =>
      { err := none
        record := { c with ID := s.nextID }
        store := { s with channels := s.channels ++ [{ c with ID := s.nextID }] } }
  GetSubscribeByID := fun s gid channelID =>
    .ok (s.subscribes.find? (RssSubscribe.isPair gid channelID))
  CreateSubscribe := fun s gid channelID =>
    { err := none
      store :=
        { s with
          subscribes := s.subscribes ++ [{ GroupID := gid, RssFeedChannelID := channelID }] } }
  DeleteSubscribe := fun s gid channelID =>
    { err := none
      store :=
        { s with subscribes := s.subscribes.filter (fun r => !(r.isPair gid channelID)) } }
  GetIfExistedSubscribe := fun s gid feedPath =>
    match s.channels.find? (RssFeedChannel.hasPath feedPath) with
    | none => .ok (none, false)
    | some c => .ok (some c, s.subscribes.any (RssSubscribe.isPair gid c.ID))
  GetSubscribedChannelsByGroupID := fun s gid =>
    .ok (s.channels.filter (fun c => s.subscribes.any (RssSubscribe.isPair gid c.ID)))

/-! ## Synchronisation, modelled from the spec -/

/-- Modelled from the spec: the diff of section 4.2 step 3. The new items of a fetch are those
whose identifier is not in the stored snapshot, ordered oldest to newest by publish time. -/
def newItems (snapshot : List String) (items : List RssContent) : List RssContent :=
  (items.filter (fun it => !(snapshot.contains it.Identifier))).insertionSort
    (fun a b => a.PublishTime ≤ b.PublishTime)

/-- Modelled from the spec: the groups subscribed to a channel, each once. -/
def Store.subscribers (s : Store) (channelID : Int) : List Int :=
  ((s.subscribes.filter (fun r => r.RssFeedChannelID == channelID)).map
    (fun r => r.GroupID)).eraseDups

/-- Modelled from the spec: appending a view to a group's bucket of the result mapping. -/
def appendView (groupView : List (Int × List RssChannelView)) (gid : Int) (v : RssChannelView) :
    List (Int × List RssChannelView) :=
  if groupView.any (fun e => e.1 == gid) then
    groupView.map (fun e => if e.1 == gid then (e.1, e.2 ++ [v]) else e)
  else groupView ++ [(gid, [v])]

/-- Modelled from the spec: one channel's turn in `SyncJobTrigger` (section 4.2 steps 2-5),
whose implementation is outside `rss_hub.go`. A failed fetch is skipped; otherwise the new
items are computed against the enumerated row's snapshot, the row is upserted with the
latest fetch, and, when there are new items, a view holding only them is appended to the
bucket of every subscribed group. The baseline of a channel is the snapshot stored when
`Subscribe` upserted it. -/
def syncChannel (client : RssHubClient) (rssHubMirrors : Mirrors)
    (acc : Store × List (Int × List RssChannelView)) (c : RssFeedChannel) :
    Store × List (Int × List RssChannelView) :=
  match client.FetchFeed rssHubMirrors.first c.RssHubFeedPath with
  | .error _ => acc
  | .ok feed =>
    let fresh := newItems c.Snapshot feed.Items
    let view := convertFeedToRssChannelView c.ID c.RssHubFeedPath feed
    let up := specStorage.UpsertSource acc.1 view.Channel
    if fresh.isEmpty then (up.store, acc.2)
    else
      (up.store,
        (up.store.subscribers c.ID).foldl
          (fun m gid => appendView m gid { Channel := view.Channel, Contents := fresh }) acc.2)

/-- The named results of `SyncJobTrigger` as the `RssDomain` interface declares them
(`groupView map[int64][]*RssChannelView`, here an association list, and `err`), with the store
state. -/
structure SyncResult where
  groupView : List (Int × List RssChannelView)
  err : Option String
  store : Store
deriving DecidableEq, Repr

/-- Modelled from the spec: `SyncJobTrigger` (section 4.2), declared in the `RssDomain`
interface of `rss_hub.go` but implemented outside it. All channels of the store are
enumerated and synchronised in turn; fetch failures are skipped and no error is returned. -/
def SyncJobTrigger (client : RssHubClient) (rssHubMirrors : Mirrors) (s : Store) : SyncResult :=
  let out := s.channels.foldl (syncChannel client rssHubMirrors) (s, [])
  { groupView := out.2, err := none, store := out.1 }

/-- A channel row is settled for a fetcher when every item the fetcher returns for its feed
path is already in its snapshot. -/
def Settled (client : RssHubClient) (rssHubMirrors : Mirrors) (r : RssFeedChannel) : Prop :=
  ∀ feed, client.FetchFeed rssHubMirrors.first r.RssHubFeedPath = .ok feed →
    ∀ it ∈ feed.Items, it.Identifier ∈ r.Snapshot

/-! ## Concrete collaborators used in the examples -/

/-- A feed with two items. -/
def sampleFeed : Feed :=
  { Title := "Tech Blog"
    Items :=
      [ { Identifier := "a", Title := "A", Link := "l/a", PublishTime := 2, Body := "" },
        { Identifier := "b", Title := "B", Link := "l/b", PublishTime := 1, Body := "" } ] }

/-- A fetcher that always returns `sampleFeed`. -/
def okClient : RssHubClient where
  FetchFeed := fun _ _ => .ok sampleFeed

/-- A fetcher that always fails. -/
def downClient : RssHubClient where
  FetchFeed := fun _ _ => .error "timeout"

/-- A mirror table with one entry. -/
def sampleMirrors : Mirrors :=
  { first := "https://rsshub.app", rest := [] }

/-- The empty store. -/
def emptyStore : Store :=
  { channels := [], subscribes := [] }

/-- A store holding one channel (ID 5) to which group 7 is subscribed. -/
def sampleStore : Store :=
  { channels := [{ ID := 5, RssHubFeedPath := "tech/blog", Title := "Old", Snapshot := [] }]
    subscribes := [{ GroupID := 7, RssFeedChannelID := 5 }] }

/-- An item newer than those of `sampleFeed`. -/
def itemC : RssContent :=
  { Identifier := "c", Title := "C", Link := "l/c", PublishTime := 3, Body := "" }

/-- The feed `sampleFeed` after the item C was published. -/
def grownFeed : Feed :=
  { sampleFeed with Items := itemC :: sampleFeed.Items }

/-- A fetcher that always returns `grownFeed`. -/
def grownClient : RssHubClient where
  FetchFeed := fun _ _ => .ok grownFeed

/-- A store holding the channel of `sampleFeed` (items a and b known), subscribed by groups 7
and 8. -/
def syncedStore : Store :=
  { channels :=
      [{ ID := 1, RssHubFeedPath := "tech/blog", Title := "Tech Blog", Snapshot := ["a", "b"] }]
    subscribes :=
      [{ GroupID := 7, RssFeedChannelID := 1 }, { GroupID := 8, RssFeedChannelID := 1 }] }

/-! ## Further definitions used in the statements -/

/-- A store that persists like `specStorage` and also writes a stored title into the caller's
record. -/
def retitlingStorage : RepoStorage Store :=
  { specStorage with
    UpsertSource := fun s c =>
      { specStorage.UpsertSource s c with
        record := { (specStorage.UpsertSource s c).record with Title := "Stored title" } } }


/-- The key of a channel row: its ID and its feed path. -/
def RssFeedChannel.key (c : RssFeedChannel) : Int × String :=
  (c.ID, c.RssHubFeedPath)

/-! ## How a `Subscribe` call runs -/

/-- The run of `Subscribe` when the fetch fails. -/
theorem Subscribe_of_fetch_error {σ : Type} (repo : rssDomain σ) (rssHubMirrors : Mirrors) (s : σ)
    (gid : Int) (feedPath : String) {e : String}
    (hf : repo.rssHubClient.FetchFeed rssHubMirrors.first feedPath = .error e) :
    Subscribe repo rssHubMirrors s gid feedPath =
      { rv := none, isChannelExisted := false, isSubExisted := false, err := some e, store := s,
        calls := [Call.FetchFeed rssHubMirrors.first feedPath] } := by
  simp only [Subscribe, hf]

/-- The run of `Subscribe` when the channel lookup fails. -/
theorem Subscribe_of_lookup_error {σ : Type} (repo : rssDomain σ) (rssHubMirrors : Mirrors) (s : σ)
    (gid : Int) (feedPath : String) {feed : Feed} {e : String}
    (hf : repo.rssHubClient.FetchFeed rssHubMirrors.first feedPath = .ok feed)
    (hl : repo.storage.GetSourceByRssHubFeedLink s feedPath = .error e) :
    Subscribe repo rssHubMirrors s gid feedPath =
      { rv := some (convertFeedToRssChannelView 0 feedPath feed), isChannelExisted := false,
        isSubExisted := false, err := some e, store := s,
        calls := [Call.FetchFeed rssHubMirrors.first feedPath,
          Call.GetSourceByRssHubFeedLink feedPath] } := by
  simp only [Subscribe, hf, hl, List.singleton_append]

/-- The run of `Subscribe` when the upsert fails. -/
theorem Subscribe_of_upsert_error {σ : Type} (repo : rssDomain σ) (rssHubMirrors : Mirrors) (s : σ)
    (gid : Int) (feedPath : String) {feed : Feed} {rf : Option RssFeedChannel} {e : String}
    (hf : repo.rssHubClient.FetchFeed rssHubMirrors.first feedPath = .ok feed)
    (hl : repo.storage.GetSourceByRssHubFeedLink s feedPath = .ok rf)
    (hu : (upserted repo s feedPath feed).err = some e) :
    Subscribe repo rssHubMirrors s gid feedPath =
      { rv := some (returnedView repo s feedPath feed),
        isChannelExisted := rf.isSome, isSubExisted := false, err := some e,
        store := (upserted repo s feedPath feed).store,
        calls := [Call.FetchFeed rssHubMirrors.first feedPath,
          Call.GetSourceByRssHubFeedLink feedPath,
          Call.UpsertSource (builtChannel feedPath feed)] } := by
  simp only [upserted, builtChannel] at hu
  simp only [Subscribe, hf, hl, hu, List.singleton_append, List.cons_append, List.nil_append]

/-- The run of `Subscribe` when the subscription lookup fails. -/
theorem Subscribe_of_sub_error {σ : Type} (repo : rssDomain σ) (rssHubMirrors : Mirrors) (s : σ)
    (gid : Int) (feedPath : String) {feed : Feed} {rf : Option RssFeedChannel} {e : String}
    (hf : repo.rssHubClient.FetchFeed rssHubMirrors.first feedPath = .ok feed)
    (hl : repo.storage.GetSourceByRssHubFeedLink s feedPath = .ok rf)
    (hu : (upserted repo s feedPath feed).err = none)
    (hg : repo.storage.GetSubscribeByID (upserted repo s feedPath feed).store gid
      (upserted repo s feedPath feed).ID = .error e) :
    Subscribe repo rssHubMirrors s gid feedPath =
      { rv := some (returnedView repo s feedPath feed),
        isChannelExisted := rf.isSome, isSubExisted := false, err := some e,
        store := (upserted repo s feedPath feed).store,
        calls := [Call.FetchFeed rssHubMirrors.first feedPath,
          Call.GetSourceByRssHubFeedLink feedPath,
          Call.UpsertSource (builtChannel feedPath feed),
          Call.GetSubscribeByID gid (upserted repo s feedPath feed).ID] } := by
  simp only [upserted, builtChannel] at hu hg
  simp only [Subscribe, hf, hl, hu, hg, List.singleton_append, List.cons_append, List.nil_append]

/-- The run of `Subscribe` when the subscription lookup finds a row. -/
theorem Subscribe_of_sub_found {σ : Type} (repo : rssDomain σ) (rssHubMirrors : Mirrors) (s : σ)
    (gid : Int) (feedPath : String) {feed : Feed} {rf : Option RssFeedChannel} {sub : RssSubscribe}
    (hf : repo.rssHubClient.FetchFeed rssHubMirrors.first feedPath = .ok feed)
    (hl : repo.storage.GetSourceByRssHubFeedLink s feedPath = .ok rf)
    (hu : (upserted repo s feedPath feed).err = none)
    (hg : repo.storage.GetSubscribeByID (upserted repo s feedPath feed).store gid
      (upserted repo s feedPath feed).ID = .ok (some sub)) :
    Subscribe repo rssHubMirrors s gid feedPath =
      { rv := some (returnedView repo s feedPath feed),
        isChannelExisted := rf.isSome, isSubExisted := true, err := none,
        store := (upserted repo s feedPath feed).store,
        calls := [Call.FetchFeed rssHubMirrors.first feedPath,
          Call.GetSourceByRssHubFeedLink feedPath,
          Call.UpsertSource (builtChannel feedPath feed),
          Call.GetSubscribeByID gid (upserted repo s feedPath feed).ID] } := by
  simp only [upserted, builtChannel] at hu hg
  simp only [Subscribe, hf, hl, hu, hg, List.singleton_append, List.cons_append, List.nil_append]

/-- The run of `Subscribe` when the subscription lookup finds nothing. -/
theorem Subscribe_of_sub_absent {σ : Type} (repo : rssDomain σ) (rssHubMirrors : Mirrors) (s : σ)
    (gid : Int) (feedPath : String) {feed : Feed} {rf : Option RssFeedChannel}
    (hf : repo.rssHubClient.FetchFeed rssHubMirrors.first feedPath = .ok feed)
    (hl : repo.storage.GetSourceByRssHubFeedLink s feedPath = .ok rf)
    (hu : (upserted repo s feedPath feed).err = none)
    (hg : repo.storage.GetSubscribeByID (upserted repo s feedPath feed).store gid
      (upserted repo s feedPath feed).ID = .ok none) :
    Subscribe repo rssHubMirrors s gid feedPath =
      { rv := some (returnedView repo s feedPath feed),
        isChannelExisted := rf.isSome, isSubExisted := false,
        err := (repo.storage.CreateSubscribe (upserted repo s feedPath feed).store gid
          (upserted repo s feedPath feed).ID).err,
        store := (repo.storage.CreateSubscribe (upserted repo s feedPath feed).store gid
          (upserted repo s feedPath feed).ID).store,
        calls := [Call.FetchFeed rssHubMirrors.first feedPath,
          Call.GetSourceByRssHubFeedLink feedPath,
          Call.UpsertSource (builtChannel feedPath feed),
          Call.GetSubscribeByID gid (upserted repo s feedPath feed).ID,
          Call.CreateSubscribe gid (upserted repo s feedPath feed).ID] } := by
  simp only [upserted, builtChannel] at hu hg
  simp only [Subscribe, hf, hl, hu, hg, List.singleton_append, List.cons_append, List.nil_append]

/-- Every `Subscribe` call runs in one of the six ways. -/
theorem subscribePath_total {σ : Type} (repo : rssDomain σ) (rssHubMirrors : Mirrors) (s : σ)
    (gid : Int) (feedPath : String) :
    SubscribePath repo rssHubMirrors s gid feedPath := by
  cases hf : repo.rssHubClient.FetchFeed rssHubMirrors.first feedPath with
  | error e => exact .fetchError e hf
  | ok feed =>
    cases hl : repo.storage.GetSourceByRssHubFeedLink s feedPath with
    | error e => exact .lookupError feed e hf hl
    | ok rf =>
      cases hu : (upserted repo s feedPath feed).err with
      | some e => exact .upsertError feed rf e hf hl hu
      | none =>
        cases hg : repo.storage.GetSubscribeByID (upserted repo s feedPath feed).store gid
            (upserted repo s feedPath feed).ID with
        | error e => exact .subError feed rf e hf hl hu hg
        | ok sub =>
          cases sub with
          | some sub => exact .subFound feed rf sub hf hl hu hg
          | none => exact .subAbsent feed rf hf hl hu hg


/-! ## The spec-modelled store -/

/-- The test `isPair` holds exactly of the row equal to the pair. -/
theorem isPair_iff (gid channelID : Int) (r : RssSubscribe) :
    r.isPair gid channelID = true ↔ r = { GroupID := gid, RssFeedChannelID := channelID } := by
  cases r
  simp [RssSubscribe.isPair]

/-- The record built by `Subscribe` carries the requested feed path. -/
theorem builtChannel_path (feedPath : String) (feed : Feed) :
    (builtChannel feedPath feed).RssHubFeedPath = feedPath := rfl

/-- The upsert of the spec store succeeds. -/
theorem specStorage_upsert_err (st : Store) (ch : RssFeedChannel) :
    (specStorage.UpsertSource st ch).err = none := by
  simp only [specStorage]
  cases st.channels.find? (RssFeedChannel.hasPath ch.RssHubFeedPath) <;> rfl

/-- The upsert of the spec store leaves the subscription rows alone. -/
theorem specStorage_upsert_subscribes (st : Store) (ch : RssFeedChannel) :
    (specStorage.UpsertSource st ch).store.subscribes = st.subscribes := by
  simp only [specStorage]
  cases st.channels.find? (RssFeedChannel.hasPath ch.RssHubFeedPath) <;> rfl

/-- After an upsert the spec store holds, under the upserted feed path, a row whose ID is the
one left in the caller's record. -/
theorem specStorage_upsert_lookup (st : Store) (ch : RssFeedChannel) :
    ∃ c, (specStorage.UpsertSource st ch).store.channels.find?
        (RssFeedChannel.hasPath ch.RssHubFeedPath) = some c ∧
      c.ID = (specStorage.UpsertSource st ch).ID := by
  simp only [specStorage]
  cases h : st.channels.find? (RssFeedChannel.hasPath ch.RssHubFeedPath) with
  | some old =>
    refine ⟨{ old with Title := ch.Title, Snapshot := ch.Snapshot }, ?_, rfl⟩
    simp only [List.find?_map]
    have hcomp : (RssFeedChannel.hasPath ch.RssHubFeedPath ∘ fun r =>
        if r.hasPath ch.RssHubFeedPath = true then
          { r with Title := ch.Title, Snapshot := ch.Snapshot } else r)
        = RssFeedChannel.hasPath ch.RssHubFeedPath := by
      funext r
      simp only [Function.comp]
      split <;> simp_all [RssFeedChannel.hasPath]
    rw [hcomp, h]
    have hold : old.hasPath ch.RssHubFeedPath = true := by
      have := List.find?_some h
      simpa using this
    simp [hold]
  | none =>
    refine ⟨{ ch with ID := st.nextID }, ?_, rfl⟩
    simp [List.find?_append, h, RssFeedChannel.hasPath]

/-- Upserting a feed path the spec store already holds returns the ID of the stored row and
changes no key. -/
theorem specStorage_upsert_keys (st : Store) (ch : RssFeedChannel) (c : RssFeedChannel)
    (h : st.channels.find? (RssFeedChannel.hasPath ch.RssHubFeedPath) = some c) :
    (specStorage.UpsertSource st ch).ID = c.ID ∧
    (specStorage.UpsertSource st ch).store.channels.map RssFeedChannel.key
      = st.channels.map RssFeedChannel.key := by
  simp only [specStorage, h, List.map_map, true_and]
  apply List.map_congr_left
  intro r _
  simp only [Function.comp]
  split <;> rfl


/-- What `Subscribe` does on the spec store when the fetch succeeds. -/
theorem Subscribe_specStorage (client : RssHubClient) (rssHubMirrors : Mirrors) (st : Store)
    (gid : Int) (feedPath : String) (feed : Feed)
    (hf : client.FetchFeed rssHubMirrors.first feedPath = .ok feed) :
    (Subscribe ⟨specStorage, client⟩ rssHubMirrors st gid feedPath).err = none ∧
    (Subscribe ⟨specStorage, client⟩ rssHubMirrors st gid feedPath).isChannelExisted
      = (st.channels.find? (RssFeedChannel.hasPath feedPath)).isSome ∧
    (Subscribe ⟨specStorage, client⟩ rssHubMirrors st gid feedPath).isSubExisted
      = (st.subscribes.find? (RssSubscribe.isPair gid
          (specStorage.UpsertSource st (builtChannel feedPath feed)).ID)).isSome ∧
    (Subscribe ⟨specStorage, client⟩ rssHubMirrors st gid feedPath).store.channels
      = (specStorage.UpsertSource st (builtChannel feedPath feed)).store.channels ∧
    (Subscribe ⟨specStorage, client⟩ rssHubMirrors st gid feedPath).store.subscribes
      = (if (st.subscribes.find? (RssSubscribe.isPair gid
            (specStorage.UpsertSource st (builtChannel feedPath feed)).ID)).isSome
         then st.subscribes
         else st.subscribes ++
           [⟨gid, (specStorage.UpsertSource st (builtChannel feedPath feed)).ID⟩]) := by
  have hl : (⟨specStorage, client⟩ : rssDomain Store).storage.GetSourceByRssHubFeedLink st feedPath
      = .ok (st.channels.find? (RssFeedChannel.hasPath feedPath)) := rfl
  have hu : (upserted (⟨specStorage, client⟩ : rssDomain Store) st feedPath feed).err = none :=
    specStorage_upsert_err st _
  have hsubs := specStorage_upsert_subscribes st (builtChannel feedPath feed)
  cases hfind : st.subscribes.find? (RssSubscribe.isPair gid
      (specStorage.UpsertSource st (builtChannel feedPath feed)).ID) with
  | some sub =>
    have hg : (⟨specStorage, client⟩ : rssDomain Store).storage.GetSubscribeByID
        (upserted (⟨specStorage, client⟩ : rssDomain Store) st feedPath feed).store gid
        (upserted (⟨specStorage, client⟩ : rssDomain Store) st feedPath feed).ID = .ok (some sub) := by
      show Except.ok (List.find? _ (specStorage.UpsertSource st (builtChannel feedPath feed)).store.subscribes) = _
      rw [hsubs, hfind]
    rw [Subscribe_of_sub_found ⟨specStorage, client⟩ rssHubMirrors st gid feedPath hf hl hu hg]
    exact ⟨rfl, rfl, rfl, rfl, hsubs⟩
  | none =>
    have hg : (⟨specStorage, client⟩ : rssDomain Store).storage.GetSubscribeByID
        (upserted (⟨specStorage, client⟩ : rssDomain Store) st feedPath feed).store gid
        (upserted (⟨specStorage, client⟩ : rssDomain Store) st feedPath feed).ID = .ok none := by
      show Except.ok (List.find? _ (specStorage.UpsertSource st (builtChannel feedPath feed)).store.subscribes) = _
      rw [hsubs, hfind]
    rw [Subscribe_of_sub_absent ⟨specStorage, client⟩ rssHubMirrors st gid feedPath hf hl hu hg]
    refine ⟨rfl, rfl, rfl, rfl, ?_⟩
    show (specStorage.UpsertSource st (builtChannel feedPath feed)).store.subscribes ++ _ = _
    rw [hsubs]; simp

/-- On any store, a `Subscribe` call without error has fetched a feed. -/
theorem fetch_ok_of_Subscribe_ok {σ : Type} (repo : rssDomain σ) (rssHubMirrors : Mirrors) (s : σ)
    (gid : Int) (feedPath : String)
    (hok : (Subscribe repo rssHubMirrors s gid feedPath).err = none) :
    ∃ feed, repo.rssHubClient.FetchFeed rssHubMirrors.first feedPath = .ok feed := by
  cases hf : repo.rssHubClient.FetchFeed rssHubMirrors.first feedPath with
  | error e =>
    rw [Subscribe_of_fetch_error repo rssHubMirrors s gid feedPath hf] at hok
    simp at hok
  | ok feed => exact ⟨feed, rfl⟩

/-! ## Claims about the engine -/

/-- The append loop of `GetSubscribedChannelsByGroupID` is a map. -/
theorem foldl_append_view (cs : List RssFeedChannel) (acc : List RssChannelView) :
    cs.foldl (fun acc cn => acc ++ [{ Channel := cn, Contents := [] }]) acc
      = acc ++ cs.map (fun cn => { Channel := cn, Contents := [] }) := by
  induction cs generalizing acc with
  | nil => simp
  | cons c cs ih => simp [ih]

/-- C1. If the fetcher returns an error `e`, `Subscribe` returns `e` with no view and both flags
false, every logged call is the fetch (no store operation is invoked), and the store state is
the one before the call. -/
theorem Subscribe_fetch_error {σ : Type} (repo : rssDomain σ) (rssHubMirrors : Mirrors) (s : σ)
    (gid : Int) (feedPath : String) (e : String)
    (hfetch : repo.rssHubClient.FetchFeed rssHubMirrors.first feedPath = .error e) :
    (Subscribe repo rssHubMirrors s gid feedPath).err = some e ∧
    (Subscribe repo rssHubMirrors s gid feedPath).rv = none ∧
    (Subscribe repo rssHubMirrors s gid feedPath).isChannelExisted = false ∧
    (Subscribe repo rssHubMirrors s gid feedPath).isSubExisted = false ∧
    (∀ c ∈ (Subscribe repo rssHubMirrors s gid feedPath).calls, c.isStoreCall = false) ∧
    (Subscribe repo rssHubMirrors s gid feedPath).store = s := by
  rw [Subscribe_of_fetch_error repo rssHubMirrors s gid feedPath hfetch]
  simp [Call.isStoreCall]

/-- C1 at a concrete input: a fetcher that is down, on a store with one subscribed channel. -/
theorem Subscribe_fetch_error_witness :
    downClient.FetchFeed sampleMirrors.first "tech/blog" = .error "timeout" ∧
    (Subscribe ⟨specStorage, downClient⟩ sampleMirrors sampleStore 7 "tech/blog").err = some "timeout" ∧
    (Subscribe ⟨specStorage, downClient⟩ sampleMirrors sampleStore 7 "tech/blog").rv = none ∧
    (Subscribe ⟨specStorage, downClient⟩ sampleMirrors sampleStore 7 "tech/blog").isChannelExisted = false ∧
    (Subscribe ⟨specStorage, downClient⟩ sampleMirrors sampleStore 7 "tech/blog").isSubExisted = false ∧
    (∀ c ∈ (Subscribe ⟨specStorage, downClient⟩ sampleMirrors sampleStore 7 "tech/blog").calls,
      c.isStoreCall = false) ∧
    (Subscribe ⟨specStorage, downClient⟩ sampleMirrors sampleStore 7 "tech/blog").store = sampleStore :=
  ⟨rfl, Subscribe_fetch_error ⟨specStorage, downClient⟩ sampleMirrors sampleStore 7 "tech/blog"
    "timeout" rfl⟩

/-- The upsert of the spec store writes the row's ID, and nothing else, into the record. -/
theorem specStorage_upsert_record (st : Store) (ch : RssFeedChannel) :
    (specStorage.UpsertSource st ch).record
      = { ch with ID := (specStorage.UpsertSource st ch).ID } := by
  simp only [specStorage, UpsertOutcome.ID]
  cases st.channels.find? (RssFeedChannel.hasPath ch.RssHubFeedPath) <;> rfl

/-- The view a `Subscribe` call returns without error: a feed was fetched, the channel record
is the built one as the store left it and the contents are the built ones. -/
theorem Subscribe_ok_view {σ : Type} (repo : rssDomain σ) (rssHubMirrors : Mirrors)
    (s : σ) (gid : Int) (feedPath : String)
    (hok : (Subscribe repo rssHubMirrors s gid feedPath).err = none) :
    ∃ feed, repo.rssHubClient.FetchFeed rssHubMirrors.first feedPath = .ok feed ∧
      (Subscribe repo rssHubMirrors s gid feedPath).rv = some (returnedView repo s feedPath feed) := by
  rcases subscribePath_total repo rssHubMirrors s gid feedPath with
    ⟨e, hf⟩ | ⟨feed, e, hf, hl⟩ | ⟨feed, rf, e, hf, hl, hu⟩ | ⟨feed, rf, e, hf, hl, hu, hg⟩ |
    ⟨feed, rf, sub, hf, hl, hu, hg⟩ | ⟨feed, rf, hf, hl, hu, hg⟩
  · rw [Subscribe_of_fetch_error repo rssHubMirrors s gid feedPath hf] at hok; simp at hok
  · rw [Subscribe_of_lookup_error repo rssHubMirrors s gid feedPath hf hl] at hok; simp at hok
  · rw [Subscribe_of_upsert_error repo rssHubMirrors s gid feedPath hf hl hu] at hok; simp at hok
  · rw [Subscribe_of_sub_error repo rssHubMirrors s gid feedPath hf hl hu hg] at hok; simp at hok
  · rw [Subscribe_of_sub_found repo rssHubMirrors s gid feedPath hf hl hu hg]
    exact ⟨feed, hf, rfl⟩
  · rw [Subscribe_of_sub_absent repo rssHubMirrors s gid feedPath hf hl hu hg]
    exact ⟨feed, hf, rfl⟩

/-- C3. Whenever `Subscribe` returns without error, for every store and fetcher, a feed was
fetched in that call and the returned view is the one built from it: its contents are the
items of the fetched feed and its channel record is the built one as `UpsertSource` left it,
on both successful paths and whatever the two flags. On the spec-modelled store, whose upsert
writes only the ID into the record, the returned view is the view of the fetched feed: its feed
path is the requested one and its title and content items are those of the fetched feed. -/
theorem Subscribe_returns_fetched_view {σ : Type} (repo : rssDomain σ) (rssHubMirrors : Mirrors)
    (s : σ) (gid : Int) (feedPath : String)
    (hok : (Subscribe repo rssHubMirrors s gid feedPath).err = none) :
    (∃ feed v, repo.rssHubClient.FetchFeed rssHubMirrors.first feedPath = .ok feed ∧
      (Subscribe repo rssHubMirrors s gid feedPath).rv = some v ∧
      v.Channel
        = (repo.storage.UpsertSource s (convertFeedToRssChannelView 0 feedPath feed).Channel).record ∧
      v.Contents = (convertFeedToRssChannelView 0 feedPath feed).Contents ∧
      v.Contents = feed.Items) ∧
    (∀ (client : RssHubClient) (st : Store),
      (Subscribe ⟨specStorage, client⟩ rssHubMirrors st gid feedPath).err = none →
      ∃ feed v, client.FetchFeed rssHubMirrors.first feedPath = .ok feed ∧
        (Subscribe ⟨specStorage, client⟩ rssHubMirrors st gid feedPath).rv = some v ∧
        v = convertFeedToRssChannelView v.Channel.ID feedPath feed ∧
        v.Channel.RssHubFeedPath = feedPath ∧ v.Channel.Title = feed.Title ∧
        v.Contents = feed.Items) := by
  constructor
  · obtain ⟨feed, hf, hrv⟩ := Subscribe_ok_view repo rssHubMirrors s gid feedPath hok
    exact ⟨feed, _, hf, hrv, rfl, rfl, rfl⟩
  · intro client st hst
    obtain ⟨feed, hf, hrv⟩ := Subscribe_ok_view ⟨specStorage, client⟩ rssHubMirrors st gid feedPath hst
    refine ⟨feed, _, hf, hrv, ?_⟩
    have hrec := specStorage_upsert_record st (builtChannel feedPath feed)
    have hview : returnedView (⟨specStorage, client⟩ : rssDomain Store) st feedPath feed
        = convertFeedToRssChannelView
            (specStorage.UpsertSource st (builtChannel feedPath feed)).ID feedPath feed := by
      show ({ Channel := (specStorage.UpsertSource st (builtChannel feedPath feed)).record,
              Contents := _ } : RssChannelView) = _
      rw [hrec]
      rfl
    rw [hview]
    exact ⟨rfl, rfl, rfl, rfl⟩

/-- C3 at a concrete input: group 7 subscribes again to the channel it already follows. -/
theorem Subscribe_returns_fetched_view_witness :
    (Subscribe ⟨specStorage, okClient⟩ sampleMirrors sampleStore 7 "tech/blog").err = none ∧
    (∃ feed v, okClient.FetchFeed sampleMirrors.first "tech/blog" = .ok feed ∧
      (Subscribe ⟨specStorage, okClient⟩ sampleMirrors sampleStore 7 "tech/blog").rv = some v ∧
      v = convertFeedToRssChannelView v.Channel.ID "tech/blog" feed ∧
      v.Channel.RssHubFeedPath = "tech/blog" ∧ v.Channel.Title = feed.Title ∧
      v.Contents = feed.Items) :=
  ⟨by decide,
    (Subscribe_returns_fetched_view ⟨specStorage, okClient⟩ sampleMirrors sampleStore 7
      "tech/blog" (by decide)).2 okClient sampleStore (by decide)⟩

/-- With a store that writes a stored title into the record it is handed, the view returned by
`Subscribe` carries that title: the record comes back as the store left it. -/
theorem Subscribe_returns_record_as_stored :
    (Subscribe ⟨retitlingStorage, okClient⟩ sampleMirrors sampleStore 7 "tech/blog").err = none ∧
    ((Subscribe ⟨retitlingStorage, okClient⟩ sampleMirrors sampleStore 7 "tech/blog").rv.map
      (fun v => (v.Channel.Title, v.Channel.ID, v.Contents)))
      = some ("Stored title", 5, sampleFeed.Items) := by
  decide

/-- C4. If the combined lookup succeeds but reports no subscription or returns no channel,
`Unsubscribe` returns the error "频道不存在", the only call it makes is that lookup (no
`DeleteSubscribe`), and the store state is unchanged. -/
theorem Unsubscribe_not_found {σ : Type} (repo : rssDomain σ) (s : σ) (gid : Int)
    (feedPath : String) (rf : Option RssFeedChannel) (ifExisted : Bool)
    (hlookup : repo.storage.GetIfExistedSubscribe s gid feedPath = .ok (rf, ifExisted))
    (habsent : ifExisted = false ∨ rf = none) :
    (Unsubscribe repo s gid feedPath).err = some "频道不存在" ∧
    (∀ g k, Call.DeleteSubscribe g k ∉ (Unsubscribe repo s gid feedPath).calls) ∧
    (Unsubscribe repo s gid feedPath).calls = [Call.GetIfExistedSubscribe gid feedPath] ∧
    (Unsubscribe repo s gid feedPath).store = s := by
  unfold Unsubscribe
  rcases habsent with h | h
  · subst h; cases rf <;> simp [hlookup]
  · subst h; cases ifExisted <;> simp [hlookup]

/-- C4 at a concrete input: group 8 is not subscribed to the stored channel. -/
theorem Unsubscribe_not_found_witness :
    specStorage.GetIfExistedSubscribe sampleStore 8 "tech/blog"
      = .ok (some { ID := 5, RssHubFeedPath := "tech/blog", Title := "Old", Snapshot := [] },
          false) ∧
    (Unsubscribe ⟨specStorage, okClient⟩ sampleStore 8 "tech/blog").err = some "频道不存在" ∧
    (∀ g k, Call.DeleteSubscribe g k ∉ (Unsubscribe ⟨specStorage, okClient⟩ sampleStore 8 "tech/blog").calls) ∧
    (Unsubscribe ⟨specStorage, okClient⟩ sampleStore 8 "tech/blog").calls
      = [Call.GetIfExistedSubscribe 8 "tech/blog"] ∧
    (Unsubscribe ⟨specStorage, okClient⟩ sampleStore 8 "tech/blog").store = sampleStore :=
  ⟨rfl, Unsubscribe_not_found ⟨specStorage, okClient⟩ sampleStore 8 "tech/blog"
    (some { ID := 5, RssHubFeedPath := "tech/blog", Title := "Old", Snapshot := [] }) false
    rfl (Or.inl rfl)⟩

/-- C6. When the store query succeeds with the channel list `cs`,
`GetSubscribedChannelsByGroupID` returns no error and an allocated sequence of the same length
and order as `cs` whose i-th element holds `cs[i]` and no content items (an empty, non-nil
sequence when `cs` is empty); the only call made is that query (no fetch, no store write) and
the store state is unchanged. -/
theorem GetSubscribedChannelsByGroupID_views {σ : Type} (repo : rssDomain σ) (s : σ) (gid : Int)
    (cs : List RssFeedChannel)
    (hquery : repo.storage.GetSubscribedChannelsByGroupID s gid = .ok cs) :
    (GetSubscribedChannelsByGroupID repo s gid).err = none ∧
    (GetSubscribedChannelsByGroupID repo s gid).rv
      = some (cs.map (fun cn => { Channel := cn, Contents := [] })) ∧
    (∃ vs, (GetSubscribedChannelsByGroupID repo s gid).rv = some vs ∧ vs.length = cs.length ∧
      ∀ (i : Nat) (h : i < cs.length), vs[i]? = some { Channel := cs[i], Contents := [] }) ∧
    (cs = [] → (GetSubscribedChannelsByGroupID repo s gid).rv = some []) ∧
    (GetSubscribedChannelsByGroupID repo s gid).calls = [Call.GetSubscribedChannelsByGroupID gid] ∧
    (GetSubscribedChannelsByGroupID repo s gid).store = s := by
  have hrv : (GetSubscribedChannelsByGroupID repo s gid).rv
      = some (cs.map (fun cn => { Channel := cn, Contents := [] })) := by
    simp [GetSubscribedChannelsByGroupID, hquery, foldl_append_view]
  refine ⟨?_, hrv, ⟨_, hrv, by simp, ?_⟩, ?_, ?_, ?_⟩
  · simp [GetSubscribedChannelsByGroupID, hquery]
  · intro i h; simp [h]
  · intro h; subst h; simpa using hrv
  · simp [GetSubscribedChannelsByGroupID, hquery]
  · simp [GetSubscribedChannelsByGroupID, hquery]

/-- C6 at a concrete input: group 7 follows the one stored channel. -/
theorem GetSubscribedChannelsByGroupID_views_witness :
    specStorage.GetSubscribedChannelsByGroupID sampleStore 7
      = .ok [{ ID := 5, RssHubFeedPath := "tech/blog", Title := "Old", Snapshot := [] }] ∧
    (GetSubscribedChannelsByGroupID ⟨specStorage, okClient⟩ sampleStore 7).err = none ∧
    (GetSubscribedChannelsByGroupID ⟨specStorage, okClient⟩ sampleStore 7).rv
      = some [{ Channel := { ID := 5, RssHubFeedPath := "tech/blog", Title := "Old", Snapshot := [] },
                Contents := [] }] ∧
    (GetSubscribedChannelsByGroupID ⟨specStorage, okClient⟩ sampleStore 7).calls
      = [Call.GetSubscribedChannelsByGroupID 7] ∧
    (GetSubscribedChannelsByGroupID ⟨specStorage, okClient⟩ sampleStore 7).store = sampleStore :=
  ⟨rfl,
    (GetSubscribedChannelsByGroupID_views ⟨specStorage, okClient⟩ sampleStore 7
      [{ ID := 5, RssHubFeedPath := "tech/blog", Title := "Old", Snapshot := [] }] rfl).1,
    (GetSubscribedChannelsByGroupID_views ⟨specStorage, okClient⟩ sampleStore 7
      [{ ID := 5, RssHubFeedPath := "tech/blog", Title := "Old", Snapshot := [] }] rfl).2.1,
    (GetSubscribedChannelsByGroupID_views ⟨specStorage, okClient⟩ sampleStore 7
      [{ ID := 5, RssHubFeedPath := "tech/blog", Title := "Old", Snapshot := [] }] rfl).2.2.2.2⟩

/-- C10. The store writes of one `Subscribe` call are none, `[UpsertSource]` or
`[UpsertSource, CreateSubscribe]`; the upsert is issued whenever the fetch and the channel
lookup succeed (whether or not a channel was found); `CreateSubscribe` is issued only after a
successful upsert and a subscription lookup that found nothing; and when that lookup finds a
subscription the call returns `isSubExisted = true`, no error, and the upsert as its only
write. -/
theorem Subscribe_writes {σ : Type} (repo : rssDomain σ) (rssHubMirrors : Mirrors) (s : σ)
    (gid : Int) (feedPath : String) :
    (writes (Subscribe repo rssHubMirrors s gid feedPath).calls = [] ∨
      (∃ ch, writes (Subscribe repo rssHubMirrors s gid feedPath).calls = [Call.UpsertSource ch]) ∨
      (∃ ch k, writes (Subscribe repo rssHubMirrors s gid feedPath).calls
        = [Call.UpsertSource ch, Call.CreateSubscribe gid k])) ∧
    (∀ feed rf, repo.rssHubClient.FetchFeed rssHubMirrors.first feedPath = .ok feed →
      repo.storage.GetSourceByRssHubFeedLink s feedPath = .ok rf →
      Call.UpsertSource (builtChannel feedPath feed)
        ∈ (Subscribe repo rssHubMirrors s gid feedPath).calls) ∧
    (∀ g k, Call.CreateSubscribe g k ∈ (Subscribe repo rssHubMirrors s gid feedPath).calls →
      ∃ feed, repo.rssHubClient.FetchFeed rssHubMirrors.first feedPath = .ok feed ∧
        (upserted repo s feedPath feed).err = none ∧
        repo.storage.GetSubscribeByID (upserted repo s feedPath feed).store gid
          (upserted repo s feedPath feed).ID = .ok none ∧
        g = gid ∧ k = (upserted repo s feedPath feed).ID) ∧
    (∀ feed rf sub, repo.rssHubClient.FetchFeed rssHubMirrors.first feedPath = .ok feed →
      repo.storage.GetSourceByRssHubFeedLink s feedPath = .ok rf →
      (upserted repo s feedPath feed).err = none →
      repo.storage.GetSubscribeByID (upserted repo s feedPath feed).store gid
        (upserted repo s feedPath feed).ID = .ok (some sub) →
      (Subscribe repo rssHubMirrors s gid feedPath).isSubExisted = true ∧
      (Subscribe repo rssHubMirrors s gid feedPath).err = none ∧
      writes (Subscribe repo rssHubMirrors s gid feedPath).calls
        = [Call.UpsertSource (builtChannel feedPath feed)]) := by
  rcases subscribePath_total repo rssHubMirrors s gid feedPath with
    ⟨e, hf⟩ | ⟨feed, e, hf, hl⟩ | ⟨feed, rf, e, hf, hl, hu⟩ | ⟨feed, rf, e, hf, hl, hu, hg⟩ |
    ⟨feed, rf, sub, hf, hl, hu, hg⟩ | ⟨feed, rf, hf, hl, hu, hg⟩
  · rw [Subscribe_of_fetch_error repo rssHubMirrors s gid feedPath hf]
    simp [writes, Call.isWrite, hf]
  · rw [Subscribe_of_lookup_error repo rssHubMirrors s gid feedPath hf hl]
    simp [writes, Call.isWrite, hf, hl]
  · rw [Subscribe_of_upsert_error repo rssHubMirrors s gid feedPath hf hl hu]
    refine ⟨Or.inr (Or.inl ⟨builtChannel feedPath feed, by simp [writes, Call.isWrite]⟩), ?_, ?_, ?_⟩
    · intro feed1 rf1 h1 _
      rw [hf] at h1; cases h1; simp
    · intro g k h; simp at h
    · intro feed1 rf1 sub1 h1 _ h3 _
      rw [hf] at h1; cases h1; rw [hu] at h3; cases h3
  · rw [Subscribe_of_sub_error repo rssHubMirrors s gid feedPath hf hl hu hg]
    refine ⟨Or.inr (Or.inl ⟨builtChannel feedPath feed, by simp [writes, Call.isWrite]⟩), ?_, ?_, ?_⟩
    · intro feed1 rf1 h1 _
      rw [hf] at h1; cases h1; simp
    · intro g k h; simp at h
    · intro feed1 rf1 sub1 h1 _ _ h4
      rw [hf] at h1; cases h1; rw [hg] at h4; cases h4
  · rw [Subscribe_of_sub_found repo rssHubMirrors s gid feedPath hf hl hu hg]
    refine ⟨Or.inr (Or.inl ⟨builtChannel feedPath feed, by simp [writes, Call.isWrite]⟩), ?_, ?_, ?_⟩
    · intro feed1 rf1 h1 _
      rw [hf] at h1; cases h1; simp
    · intro g k h; simp at h
    · intro feed1 rf1 sub1 h1 _ _ _
      rw [hf] at h1; cases h1
      simp [writes, Call.isWrite]
  · rw [Subscribe_of_sub_absent repo rssHubMirrors s gid feedPath hf hl hu hg]
    refine ⟨Or.inr (Or.inr ⟨builtChannel feedPath feed, (upserted repo s feedPath feed).ID,
      by simp [writes, Call.isWrite]⟩), ?_, ?_, ?_⟩
    · intro feed1 rf1 h1 _
      rw [hf] at h1; cases h1; simp
    · intro g k h
      simp at h
      exact ⟨feed, hf, hu, hg, h.1, h.2⟩
    · intro feed1 rf1 sub1 h1 _ _ h4
      rw [hf] at h1; cases h1; rw [hg] at h4; cases h4

/-- What `Unsubscribe` does when the combined lookup finds a subscribed channel. -/
theorem Unsubscribe_of_found {σ : Type} (repo : rssDomain σ) (s : σ) (gid : Int)
    (feedPath : String) (c : RssFeedChannel)
    (hfound : repo.storage.GetIfExistedSubscribe s gid feedPath = .ok (some c, true)) :
    (Unsubscribe repo s gid feedPath).calls
      = [Call.GetIfExistedSubscribe gid feedPath, Call.DeleteSubscribe gid c.ID] ∧
    (Unsubscribe repo s gid feedPath).store = (repo.storage.DeleteSubscribe s gid c.ID).store ∧
    ((repo.storage.DeleteSubscribe s gid c.ID).err = none →
      (Unsubscribe repo s gid feedPath).err = none) := by
  unfold Unsubscribe
  cases hd : (repo.storage.DeleteSubscribe s gid c.ID).err <;> simp [hfound, hd]

/-- The delete of the spec store removes the rows equal to the pair and nothing else. -/
theorem specStorage_delete (st : Store) (gid channelID : Int) :
    (specStorage.DeleteSubscribe st gid channelID).err = none ∧
    (specStorage.DeleteSubscribe st gid channelID).store.channels = st.channels ∧
    (specStorage.DeleteSubscribe st gid channelID).store.subscribes
      = st.subscribes.filter
          (fun r => decide (r ≠ { GroupID := gid, RssFeedChannelID := channelID })) := by
  refine ⟨rfl, rfl, ?_⟩
  show st.subscribes.filter (fun r => !(r.isPair gid channelID)) = _
  apply List.filter_congr
  intro r _
  by_cases hr : r = { GroupID := gid, RssFeedChannelID := channelID }
  · simp [hr, (isPair_iff gid channelID _).2 rfl]
  · have : r.isPair gid channelID = false := by
      cases hp : r.isPair gid channelID
      · rfl
      · exact absurd ((isPair_iff gid channelID r).1 hp) hr
    simp [hr, this]

/-- C5. When the combined lookup finds channel `c` subscribed by `gid`, `Unsubscribe` makes
exactly the calls lookup and `DeleteSubscribe gid c.ID`, its only write, and leaves the store
as that delete left it; on the spec-modelled store the channel rows are unchanged and the
subscription rows are the former ones without the pair (gid, c.ID), in the same order. -/
theorem Unsubscribe_frame {σ : Type} (repo : rssDomain σ) (s : σ) (gid : Int)
    (feedPath : String) (c : RssFeedChannel)
    (hfound : repo.storage.GetIfExistedSubscribe s gid feedPath = .ok (some c, true)) :
    (Unsubscribe repo s gid feedPath).calls
      = [Call.GetIfExistedSubscribe gid feedPath, Call.DeleteSubscribe gid c.ID] ∧
    writes (Unsubscribe repo s gid feedPath).calls = [Call.DeleteSubscribe gid c.ID] ∧
    (Unsubscribe repo s gid feedPath).store = (repo.storage.DeleteSubscribe s gid c.ID).store ∧
    (∀ (client : RssHubClient) (st : Store),
      specStorage.GetIfExistedSubscribe st gid feedPath = .ok (some c, true) →
      (Unsubscribe ⟨specStorage, client⟩ st gid feedPath).err = none ∧
      (Unsubscribe ⟨specStorage, client⟩ st gid feedPath).store.channels = st.channels ∧
      (Unsubscribe ⟨specStorage, client⟩ st gid feedPath).store.subscribes
        = st.subscribes.filter
            (fun r => decide (r ≠ { GroupID := gid, RssFeedChannelID := c.ID }))) := by
  obtain ⟨h1, h2, _⟩ := Unsubscribe_of_found repo s gid feedPath c hfound
  refine ⟨h1, ?_, h2, ?_⟩
  · rw [h1]; simp [writes, Call.isWrite]
  · intro client st hst
    obtain ⟨_, k2, k3⟩ := Unsubscribe_of_found ⟨specStorage, client⟩ st gid feedPath c hst
    obtain ⟨d1, d2, d3⟩ := specStorage_delete st gid c.ID
    exact ⟨k3 d1, by rw [k2]; exact d2, by rw [k2]; exact d3⟩

/-- C5 at a concrete input: group 7 unsubscribes from the stored channel with ID 5. -/
theorem Unsubscribe_frame_witness :
    specStorage.GetIfExistedSubscribe sampleStore 7 "tech/blog"
      = .ok (some { ID := 5, RssHubFeedPath := "tech/blog", Title := "Old", Snapshot := [] },
          true) ∧
    (Unsubscribe ⟨specStorage, okClient⟩ sampleStore 7 "tech/blog").calls
      = [Call.GetIfExistedSubscribe 7 "tech/blog", Call.DeleteSubscribe 7 5] ∧
    writes (Unsubscribe ⟨specStorage, okClient⟩ sampleStore 7 "tech/blog").calls
      = [Call.DeleteSubscribe 7 5] ∧
    (Unsubscribe ⟨specStorage, okClient⟩ sampleStore 7 "tech/blog").store
      = (specStorage.DeleteSubscribe sampleStore 7 5).store ∧
    (∀ (client : RssHubClient) (st : Store),
      specStorage.GetIfExistedSubscribe st 7 "tech/blog"
        = .ok (some { ID := 5, RssHubFeedPath := "tech/blog", Title := "Old", Snapshot := [] }, true) →
      (Unsubscribe ⟨specStorage, client⟩ st 7 "tech/blog").err = none ∧
      (Unsubscribe ⟨specStorage, client⟩ st 7 "tech/blog").store.channels = st.channels ∧
      (Unsubscribe ⟨specStorage, client⟩ st 7 "tech/blog").store.subscribes
        = st.subscribes.filter
            (fun r => decide (r ≠ { GroupID := 7, RssFeedChannelID := 5 }))) :=
  ⟨rfl, Unsubscribe_frame ⟨specStorage, okClient⟩ sampleStore 7 "tech/blog"
    { ID := 5, RssHubFeedPath := "tech/blog", Title := "Old", Snapshot := [] } rfl⟩

/-! ## Claims about repeated calls on the spec-modelled store -/

/-- C2. On the spec-modelled store, when `Subscribe gid feedPath` is called twice in a row and
both calls return without error (the two fetches may return different feeds), the second call
returns `isChannelExisted = true` and `isSubExisted = true`, and the channel rows have the same
keys (ID and feed path) and the subscription rows are the same as after the first call. -/
theorem Subscribe_twice (client1 client2 : RssHubClient) (rssHubMirrors : Mirrors) (st : Store)
    (gid : Int) (feedPath : String)
    (hfirst : (Subscribe ⟨specStorage, client1⟩ rssHubMirrors st gid feedPath).err = none)
    (hsecond : (Subscribe ⟨specStorage, client2⟩ rssHubMirrors
      (Subscribe ⟨specStorage, client1⟩ rssHubMirrors st gid feedPath).store gid feedPath).err
        = none) :
    (Subscribe ⟨specStorage, client2⟩ rssHubMirrors
      (Subscribe ⟨specStorage, client1⟩ rssHubMirrors st gid feedPath).store gid feedPath
      ).isChannelExisted = true ∧
    (Subscribe ⟨specStorage, client2⟩ rssHubMirrors
      (Subscribe ⟨specStorage, client1⟩ rssHubMirrors st gid feedPath).store gid feedPath
      ).isSubExisted = true ∧
    (Subscribe ⟨specStorage, client2⟩ rssHubMirrors
      (Subscribe ⟨specStorage, client1⟩ rssHubMirrors st gid feedPath).store gid feedPath
      ).store.channels.map RssFeedChannel.key
      = (Subscribe ⟨specStorage, client1⟩ rssHubMirrors st gid feedPath).store.channels.map
          RssFeedChannel.key ∧
    (Subscribe ⟨specStorage, client2⟩ rssHubMirrors
      (Subscribe ⟨specStorage, client1⟩ rssHubMirrors st gid feedPath).store gid feedPath
      ).store.subscribes
      = (Subscribe ⟨specStorage, client1⟩ rssHubMirrors st gid feedPath).store.subscribes := by
  obtain ⟨feed1, hf1⟩ := fetch_ok_of_Subscribe_ok _ _ _ _ _ hfirst
  obtain ⟨feed2, hf2⟩ := fetch_ok_of_Subscribe_ok _ _ _ _ _ hsecond
  obtain ⟨-, -, -, hch1, hsub1⟩ := Subscribe_specStorage client1 rssHubMirrors st gid feedPath feed1 hf1
  generalize (Subscribe ⟨specStorage, client1⟩ rssHubMirrors st gid feedPath).store = s1 at *
  obtain ⟨-, hex2, hsx2, hch2, hsub2⟩ :=
    Subscribe_specStorage client2 rssHubMirrors s1 gid feedPath feed2 hf2
  -- the channel stored by the first call is found by the second
  obtain ⟨c, hc, hcid⟩ := specStorage_upsert_lookup st (builtChannel feedPath feed1)
  rw [builtChannel_path, ← hch1] at hc
  have hkeys := specStorage_upsert_keys s1 (builtChannel feedPath feed2) c
    (by rw [builtChannel_path]; exact hc)
  -- the subscription left by the first call is found by the second
  have hfound : (s1.subscribes.find? (RssSubscribe.isPair gid
      (specStorage.UpsertSource s1 (builtChannel feedPath feed2)).ID)).isSome = true := by
    rw [hkeys.1, hcid, hsub1]
    split
    · assumption
    · rw [List.find?_isSome]
      exact ⟨_, by simp, (isPair_iff _ _ _).2 rfl⟩
  refine ⟨?_, ?_, ?_, ?_⟩
  · rw [hex2, hc]; rfl
  · rw [hsx2, hfound]
  · rw [hch2, hkeys.2]
  · rw [hsub2, if_pos hfound]

/-- C2 at a concrete input: group 7 subscribes twice from the empty store, the feed having grown
between the two calls. -/
theorem Subscribe_twice_witness :
    (Subscribe ⟨specStorage, okClient⟩ sampleMirrors emptyStore 7 "tech/blog").err = none ∧
    (Subscribe ⟨specStorage, grownClient⟩ sampleMirrors
      (Subscribe ⟨specStorage, okClient⟩ sampleMirrors emptyStore 7 "tech/blog").store 7 "tech/blog"
      ).err = none ∧
    (Subscribe ⟨specStorage, grownClient⟩ sampleMirrors
      (Subscribe ⟨specStorage, okClient⟩ sampleMirrors emptyStore 7 "tech/blog").store 7 "tech/blog"
      ).isChannelExisted = true ∧
    (Subscribe ⟨specStorage, grownClient⟩ sampleMirrors
      (Subscribe ⟨specStorage, okClient⟩ sampleMirrors emptyStore 7 "tech/blog").store 7 "tech/blog"
      ).isSubExisted = true ∧
    (Subscribe ⟨specStorage, grownClient⟩ sampleMirrors
      (Subscribe ⟨specStorage, okClient⟩ sampleMirrors emptyStore 7 "tech/blog").store 7 "tech/blog"
      ).store.channels.map RssFeedChannel.key
      = (Subscribe ⟨specStorage, okClient⟩ sampleMirrors emptyStore 7 "tech/blog").store.channels.map
          RssFeedChannel.key ∧
    (Subscribe ⟨specStorage, grownClient⟩ sampleMirrors
      (Subscribe ⟨specStorage, okClient⟩ sampleMirrors emptyStore 7 "tech/blog").store 7 "tech/blog"
      ).store.subscribes
      = (Subscribe ⟨specStorage, okClient⟩ sampleMirrors emptyStore 7 "tech/blog").store.subscribes :=
  ⟨by decide, by decide,
    Subscribe_twice okClient grownClient sampleMirrors emptyStore 7 "tech/blog" (by decide)
      (by decide)⟩

/-- C7. On the spec-modelled store, for a group with no prior subscription rows, after a
`Subscribe gid feedPath` that returns without error, `Unsubscribe gid feedPath` succeeds and
`GetSubscribedChannelsByGroupID gid` then succeeds with an empty (non-nil) sequence. -/
theorem Subscribe_Unsubscribe_then_none (client : RssHubClient) (rssHubMirrors : Mirrors)
    (st : Store) (gid : Int) (feedPath : String)
    (hprior : ∀ r ∈ st.subscribes, r.GroupID ≠ gid)
    (hsub : (Subscribe ⟨specStorage, client⟩ rssHubMirrors st gid feedPath).err = none) :
    (Unsubscribe ⟨specStorage, client⟩
      (Subscribe ⟨specStorage, client⟩ rssHubMirrors st gid feedPath).store gid feedPath).err
      = none ∧
    (GetSubscribedChannelsByGroupID ⟨specStorage, client⟩
      (Unsubscribe ⟨specStorage, client⟩
        (Subscribe ⟨specStorage, client⟩ rssHubMirrors st gid feedPath).store gid feedPath).store
      gid).err = none ∧
    (GetSubscribedChannelsByGroupID ⟨specStorage, client⟩
      (Unsubscribe ⟨specStorage, client⟩
        (Subscribe ⟨specStorage, client⟩ rssHubMirrors st gid feedPath).store gid feedPath).store
      gid).rv = some [] := by
  obtain ⟨feed, hf⟩ := fetch_ok_of_Subscribe_ok _ _ _ _ _ hsub
  obtain ⟨-, -, -, hch1, hsub1⟩ := Subscribe_specStorage client rssHubMirrors st gid feedPath feed hf
  generalize (Subscribe ⟨specStorage, client⟩ rssHubMirrors st gid feedPath).store = s1 at *
  obtain ⟨c, hc, hcid⟩ := specStorage_upsert_lookup st (builtChannel feedPath feed)
  rw [builtChannel_path, ← hch1] at hc
  have hnot : (st.subscribes.find? (RssSubscribe.isPair gid
      (specStorage.UpsertSource st (builtChannel feedPath feed)).ID)).isSome = false := by
    rw [Bool.eq_false_iff]
    intro h
    rw [List.find?_isSome] at h
    obtain ⟨r, hr, hp⟩ := h
    rw [isPair_iff] at hp
    exact hprior r hr (by rw [hp])
  rw [hnot] at hsub1
  simp only [Bool.false_eq_true, if_false] at hsub1
  have hany : s1.subscribes.any (RssSubscribe.isPair gid c.ID) = true := by
    rw [hsub1, hcid, List.any_eq_true]
    exact ⟨_, by simp, (isPair_iff _ _ _).2 rfl⟩
  have hlook : (⟨specStorage, client⟩ : rssDomain Store).storage.GetIfExistedSubscribe s1 gid feedPath
      = .ok (some c, true) := by
    show (match s1.channels.find? (RssFeedChannel.hasPath feedPath) with
      | none => Except.ok (none, false)
      | some c => Except.ok (some c, s1.subscribes.any (RssSubscribe.isPair gid c.ID))) = _
    rw [hc]; simp only [hany]
  obtain ⟨-, hst2, herr2⟩ := Unsubscribe_of_found (⟨specStorage, client⟩ : rssDomain Store) s1 gid
    feedPath c hlook
  obtain ⟨d1, -, d3⟩ := specStorage_delete s1 gid c.ID
  refine ⟨herr2 d1, ?_⟩
  generalize (Unsubscribe (⟨specStorage, client⟩ : rssDomain Store) s1 gid feedPath).store = s2 at *
  subst hst2
  have hnone : ∀ r ∈ (specStorage.DeleteSubscribe s1 gid c.ID).store.subscribes,
      r.GroupID ≠ gid := by
    intro r hr
    rw [d3, hsub1, List.mem_filter, List.mem_append] at hr
    obtain ⟨hmem, hne⟩ := hr
    rcases hmem with hmem | hmem
    · exact hprior r hmem
    · rw [List.mem_singleton] at hmem
      rw [hcid] at hne
      simp [hmem] at hne
  have hfilter : (specStorage.DeleteSubscribe s1 gid c.ID).store.channels.filter
      (fun ch => (specStorage.DeleteSubscribe s1 gid c.ID).store.subscribes.any
        (RssSubscribe.isPair gid ch.ID)) = [] := by
    rw [List.filter_eq_nil_iff]
    intro ch _ hany2
    rw [List.any_eq_true] at hany2
    obtain ⟨r, hr, hp⟩ := hany2
    rw [isPair_iff] at hp
    exact hnone r hr (by rw [hp])
  have hq : specStorage.GetSubscribedChannelsByGroupID
      (specStorage.DeleteSubscribe s1 gid c.ID).store gid = .ok [] := by
    show Except.ok (List.filter _ _) = _
    rw [hfilter]
  simp [GetSubscribedChannelsByGroupID, hq]

/-- C7 at a concrete input: group 8, which follows nothing, subscribes and unsubscribes. -/
theorem Subscribe_Unsubscribe_then_none_witness :
    (∀ r ∈ sampleStore.subscribes, r.GroupID ≠ 8) ∧
    (Subscribe ⟨specStorage, okClient⟩ sampleMirrors sampleStore 8 "tech/blog").err = none ∧
    (Unsubscribe ⟨specStorage, okClient⟩
      (Subscribe ⟨specStorage, okClient⟩ sampleMirrors sampleStore 8 "tech/blog").store 8
      "tech/blog").err = none ∧
    (GetSubscribedChannelsByGroupID ⟨specStorage, okClient⟩
      (Unsubscribe ⟨specStorage, okClient⟩
        (Subscribe ⟨specStorage, okClient⟩ sampleMirrors sampleStore 8 "tech/blog").store 8
        "tech/blog").store 8).err = none ∧
    (GetSubscribedChannelsByGroupID ⟨specStorage, okClient⟩
      (Unsubscribe ⟨specStorage, okClient⟩
        (Subscribe ⟨specStorage, okClient⟩ sampleMirrors sampleStore 8 "tech/blog").store 8
        "tech/blog").store 8).rv = some [] :=
  ⟨by decide, by decide,
    Subscribe_Unsubscribe_then_none okClient sampleMirrors sampleStore 8 "tech/blog" (by decide)
      (by decide)⟩

/-! ## Claims about the synchronisation -/

/-- A fetch whose items are all in the snapshot has no new item. -/
theorem newItems_of_settled (snapshot : List String) (items : List RssContent)
    (h : ∀ it ∈ items, it.Identifier ∈ snapshot) : newItems snapshot items = [] := by
  have hf : items.filter (fun it => !(snapshot.contains it.Identifier)) = [] := by
    rw [List.filter_eq_nil_iff]
    intro it hit
    simp [h it hit]
  unfold newItems
  rw [hf]
  rfl

/-- Synchronising a settled row reports nothing. -/
theorem syncChannel_settled (client : RssHubClient) (rssHubMirrors : Mirrors)
    (acc : Store × List (Int × List RssChannelView)) (c : RssFeedChannel)
    (hc : Settled client rssHubMirrors c) :
    (syncChannel client rssHubMirrors acc c).2 = acc.2 := by
  unfold syncChannel
  cases hf : client.FetchFeed rssHubMirrors.first c.RssHubFeedPath with
  | error e => rfl
  | ok feed =>
    simp only [newItems_of_settled c.Snapshot feed.Items (hc feed hf), List.isEmpty_nil, if_true]

/-- Synchronising settled rows reports nothing. -/
theorem foldl_syncChannel_settled (client : RssHubClient) (rssHubMirrors : Mirrors)
    (cs : List RssFeedChannel) (acc : Store × List (Int × List RssChannelView))
    (hcs : ∀ c ∈ cs, Settled client rssHubMirrors c) :
    (cs.foldl (syncChannel client rssHubMirrors) acc).2 = acc.2 := by
  induction cs generalizing acc with
  | nil => rfl
  | cons c cs ih =>
    rw [List.foldl_cons, ih _ (fun x hx => hcs x (List.mem_cons_of_mem _ hx))]
    exact syncChannel_settled client rssHubMirrors acc c (hcs c (List.mem_cons_self _ _))

/-- Every row the spec store holds after an upsert either carries the upserted feed path and
snapshot, or is a row of the former store with another feed path. -/
theorem specStorage_upsert_rows (st : Store) (ch : RssFeedChannel) :
    ∀ r ∈ (specStorage.UpsertSource st ch).store.channels,
      (r.RssHubFeedPath = ch.RssHubFeedPath ∧ r.Snapshot = ch.Snapshot) ∨
      (r ∈ st.channels ∧ r.RssHubFeedPath ≠ ch.RssHubFeedPath) := by
  intro r hr
  simp only [specStorage] at hr
  cases h : st.channels.find? (RssFeedChannel.hasPath ch.RssHubFeedPath) with
  | some old =>
    rw [h] at hr
    simp only [List.mem_map] at hr
    obtain ⟨r0, hr0, rfl⟩ := hr
    by_cases hp : r0.hasPath ch.RssHubFeedPath = true
    · left
      rw [if_pos hp]
      exact ⟨by simpa [RssFeedChannel.hasPath] using hp, rfl⟩
    · right
      rw [if_neg hp]
      exact ⟨hr0, by simpa [RssFeedChannel.hasPath] using hp⟩
  | none =>
    rw [h] at hr
    simp only [List.mem_append, List.mem_singleton] at hr
    rcases hr with hr | rfl
    · right
      refine ⟨hr, ?_⟩
      have := List.find?_eq_none.1 h r hr
      simpa [RssFeedChannel.hasPath] using this
    · left; exact ⟨rfl, rfl⟩

/-- One turn of the sync keeps every stored row settled or still to be visited. -/
theorem syncChannel_inv (client : RssHubClient) (rssHubMirrors : Mirrors)
    (acc : Store × List (Int × List RssChannelView)) (c : RssFeedChannel)
    (cs : List RssFeedChannel)
    (hinv : ∀ r ∈ acc.1.channels, Settled client rssHubMirrors r ∨
      r.RssHubFeedPath ∈ (c :: cs).map (fun x => x.RssHubFeedPath)) :
    ∀ r ∈ (syncChannel client rssHubMirrors acc c).1.channels,
      Settled client rssHubMirrors r ∨ r.RssHubFeedPath ∈ cs.map (fun x => x.RssHubFeedPath) := by
  intro r hr
  unfold syncChannel at hr
  cases hf : client.FetchFeed rssHubMirrors.first c.RssHubFeedPath with
  | error e =>
    rw [hf] at hr
    rcases hinv r hr with h | h
    · exact Or.inl h
    · rw [List.map_cons, List.mem_cons] at h
      rcases h with h | h
      · left
        intro feed hfeed
        rw [h, hf] at hfeed
        cases hfeed
      · exact Or.inr h
  | ok feed =>
    rw [hf] at hr
    have hr1 : r ∈ (specStorage.UpsertSource acc.1
        (convertFeedToRssChannelView c.ID c.RssHubFeedPath feed).Channel).store.channels := by
      simp only at hr
      split at hr <;> exact hr
    rcases specStorage_upsert_rows _ _ r hr1 with ⟨hp, hs⟩ | ⟨hmem, hp⟩
    · left
      intro feed1 hfeed1 it hit
      have hp1 : r.RssHubFeedPath = c.RssHubFeedPath := hp
      rw [hp1, hf] at hfeed1
      cases hfeed1
      rw [hs]
      exact List.mem_map_of_mem _ hit
    · have hp1 : r.RssHubFeedPath ≠ c.RssHubFeedPath := hp
      rcases hinv r hmem with h | h
      · exact Or.inl h
      · rw [List.map_cons, List.mem_cons] at h
        rcases h with h | h
        · exact absurd h hp1
        · exact Or.inr h

/-- After all turns of a sync every stored row is settled. -/
theorem foldl_syncChannel_inv (client : RssHubClient) (rssHubMirrors : Mirrors)
    (cs : List RssFeedChannel) (acc : Store × List (Int × List RssChannelView))
    (hinv : ∀ r ∈ acc.1.channels, Settled client rssHubMirrors r ∨
      r.RssHubFeedPath ∈ cs.map (fun x => x.RssHubFeedPath)) :
    ∀ r ∈ (cs.foldl (syncChannel client rssHubMirrors) acc).1.channels,
      Settled client rssHubMirrors r := by
  induction cs generalizing acc with
  | nil =>
    intro r hr
    rcases hinv r hr with h | h
    · exact h
    · simp at h
  | cons c cs ih =>
    rw [List.foldl_cons]
    exact ih _ (syncChannel_inv client rssHubMirrors acc c cs hinv)

/-- C8. For the spec-modelled `SyncJobTrigger`, a second call right after a first one, with the
same fetcher (no upstream change), returns no error and an empty mapping: no content item
reported to a group by the first call is reported to that group by the second. -/
theorem SyncJobTrigger_twice (client : RssHubClient) (rssHubMirrors : Mirrors) (s : Store) :
    (SyncJobTrigger client rssHubMirrors (SyncJobTrigger client rssHubMirrors s).store).err = none ∧
    (SyncJobTrigger client rssHubMirrors (SyncJobTrigger client rssHubMirrors s).store).groupView
      = [] ∧
    (∀ gid views v it,
      (gid, views) ∈ (SyncJobTrigger client rssHubMirrors s).groupView →
      v ∈ views → it ∈ v.Contents →
      ∀ views2 v2, (gid, views2) ∈ (SyncJobTrigger client rssHubMirrors
          (SyncJobTrigger client rssHubMirrors s).store).groupView →
        v2 ∈ views2 → it ∉ v2.Contents) := by
  have hsettled : ∀ r ∈ (SyncJobTrigger client rssHubMirrors s).store.channels,
      Settled client rssHubMirrors r := by
    apply foldl_syncChannel_inv
    intro r hr
    exact Or.inr (List.mem_map_of_mem _ hr)
  have hnil : (SyncJobTrigger client rssHubMirrors
      (SyncJobTrigger client rssHubMirrors s).store).groupView = [] :=
    foldl_syncChannel_settled client rssHubMirrors _ _ hsettled
  refine ⟨rfl, hnil, ?_⟩
  intro gid views v it _ _ _ views2 v2 h2
  rw [hnil] at h2
  simp at h2


/-- The example of the spec: with items a and b stored and a fetch returning a, b and the newer
c, the sync reports only c, to both subscribed groups, and stores the three identifiers. -/
theorem SyncJobTrigger_reports_new_item :
    (SyncJobTrigger grownClient sampleMirrors syncedStore).groupView
      = [(7, [{ Channel := (convertFeedToRssChannelView 1 "tech/blog" grownFeed).Channel,
                Contents := [itemC] }]),
         (8, [{ Channel := (convertFeedToRssChannelView 1 "tech/blog" grownFeed).Channel,
                Contents := [itemC] }])] ∧
    (SyncJobTrigger grownClient sampleMirrors syncedStore).store.channels.map
        (fun c => c.Snapshot) = [["c", "a", "b"]] := by
  decide

end domain
